import Mathlib

/-!
Shallow embedding of `src/setSafeInterval.tsx`, a React hook that runs an
asynchronous task on a fixed period without overlapping invocations.

The hook consists of:

* `_safeIntervalTrigger` (lines 78-113): two `useState` cells,
  `intervalTrigger : boolean` and `ready : boolean | undefined`, a one-time
  mount effect initializing `ready` to `true`, and an effect with dependency
  array `[intervalTrigger, paused]` that, when not paused and the trigger is
  set, resets the trigger and — only when `ready` is `true` — sets
  `ready := false` and invokes the task; the task's `then` and `catch`
  handlers both set `ready := true`.

* `_setSafeInterval` (lines 39-71): refs `timeoutRef` and `unmountedRef`; an
  effect with dependency array `[timeout]` whose body creates a `setInterval`
  clock only when `timeoutRef.current === null`, and whose cleanup sets
  `unmountedRef.current := true` and clears the interval (without resetting
  `timeoutRef.current` to `null`); the interval callback invokes the saved
  callback only when `unmountedRef.current` is still `false`.

* the facade `setSafeInterval` (lines 19-27) wires the clock callback to
  `setIntervalTrigger(true)`, i.e. every delivered clock tick is a guard
  tick.

React semantics used by the embedding: an effect re-runs exactly when a
member of its dependency array changed between renders and its cleanup runs
before the re-run and at unmount; after unmount the component never
re-renders, its effects never run again, and `setState` calls are ignored.
-/

namespace SetSafeInterval

/-- State of the `_safeIntervalTrigger` hook.  `intervalTrigger` and `ready`
are the two `useState` cells (`Option Bool` models `boolean | undefined`,
`none` being `undefined`); `paused` is the hook's prop; `inFlight` counts
task invocations whose promise has not yet settled and `invocations` counts
all calls of `asyncFunc` (ghost instrumentation). -/
structure GuardState where
  intervalTrigger : Bool
  ready : Option Bool
  paused : Bool
  inFlight : Nat
  invocations : Nat
deriving DecidableEq, Repr

/-- Body of the effect with dependency array `[intervalTrigger, paused]`
(lines 90-111): when not paused and the trigger is set, reset the trigger;
then, only when `ready` is `true` (`if (ready)` is truthy exactly on `true`
for a `boolean | undefined`), set `ready := false` and invoke the task,
recorded by bumping `inFlight` and `invocations`. -/
def runTriggerEffect (s : GuardState) : GuardState :=
  if s.paused then s
  else if s.intervalTrigger then
    let s1 : GuardState := { s with intervalTrigger := false }
    if s1.ready = some true then
      { s1 with ready := some false, inFlight := s1.inFlight + 1,
                invocations := s1.invocations + 1 }
    else s1
  else s

/-- Body of the one-time mount effect (lines 83-87): initialize `ready` to
`true` when it is still `undefined`. -/
def initReadyEffect (s : GuardState) : GuardState :=
  if s.ready = none then { s with ready := some true } else s

/-- Guard state right after mount with pause prop `p`: both effects have run
once, in declaration order (the local-variable mutation in
`setReady(() => ready = true)` makes the trigger effect of the mount render
already observe the initialized `ready`). -/
def gmount (p : Bool) : GuardState :=
  runTriggerEffect (initReadyEffect
    { intervalTrigger := false, ready := none, paused := p,
      inFlight := 0, invocations := 0 })

/-- Events driving the guard: a clock tick delivered to
`setIntervalTrigger(true)`, a change of the `paused` prop, and the settling
of an in-flight task promise (with its success/failure bit). -/
inductive GEvent where
  | tick
  | setPaused (b : Bool)
  | complete (success : Bool)
deriving DecidableEq, Repr

/-- One guard step.  A tick sets the trigger and the effect re-runs (its
dependency `intervalTrigger` changed); a pause-prop change re-renders and
the effect re-runs (its dependency `paused` changed); a settling promise
runs the `then`/`catch` handler, which sets `ready := true` regardless of
success and ends the in-flight run — `ready` is not in the dependency array
`[intervalTrigger, paused]`, so no effect body runs at completion. -/
def gstep : GEvent → GuardState → GuardState
  | GEvent.tick, s => runTriggerEffect { s with intervalTrigger := true }
  | GEvent.setPaused b, s => runTriggerEffect { s with paused := b }
  | GEvent.complete _, s =>
      if s.inFlight = 0 then s
      else { s with ready := some true, inFlight := s.inFlight - 1 }

/-- Guard states reachable from a mount by ticks, pause changes and
completions. -/
inductive GReachable : GuardState → Prop where
  | mount (p : Bool) : GReachable (gmount p)
  | step (e : GEvent) {s : GuardState} : GReachable s → GReachable (gstep e s)

/-- State of the `_setSafeInterval` hook together with the host runtime's
clock bookkeeping.  `timeoutId` is `timeoutRef.current` (`none` models
`null`), `unmounted` is `unmountedRef.current`; `liveIntervals` is the set
of intervals created for this hook instance and not yet cleared, as
`(id, period)` pairs, and `nextId` supplies fresh interval ids. -/
structure TimerState where
  timeoutId : Option Nat
  unmounted : Bool
  liveIntervals : List (Nat × Nat)
  nextId : Nat
deriving DecidableEq, Repr

/-- Body of the effect with dependency array `[timeout]` (lines 52-60):
only when `timeoutRef.current === null`, create a `setInterval` clock with
the given period and store its id in `timeoutRef.current`. -/
def runIntervalEffect (timeout : Nat) (s : TimerState) : TimerState :=
  if s.timeoutId = none then
    { s with timeoutId := some s.nextId,
             liveIntervals := (s.nextId, timeout) :: s.liveIntervals,
             nextId := s.nextId + 1 }
  else s

/-- Cleanup of that effect (lines 62-68): set `unmountedRef.current := true`;
when a timer was created, `clearInterval` it.  Note `timeoutRef.current` is
not reset to `null`. -/
def cleanup (s : TimerState) : TimerState :=
  match s.timeoutId with
  | none => { s with unmounted := true }
  | some id =>
      { s with unmounted := true,
               liveIntervals := s.liveIntervals.filter (fun ip => ip.fst != id) }

/-- Timer state right after mount with period `timeout`: the effect has run
once on the fresh state. -/
def tmount (timeout : Nat) : TimerState :=
  runIntervalEffect timeout
    { timeoutId := none, unmounted := false, liveIntervals := [], nextId := 0 }

/-- A change of the `timeout` argument: the dependency array `[timeout]`
changed, so React runs the cleanup of the previous effect and then the
effect body again with the new period. -/
def changeTimeout (t : Nat) (s : TimerState) : TimerState :=
  runIntervalEffect t (cleanup s)

/-- Timer states reachable from a mount by period changes and unmount. -/
inductive TReachable : TimerState → Prop where
  | mount (t : Nat) : TReachable (tmount t)
  | change (t : Nat) {s : TimerState} : TReachable s → TReachable (changeTimeout t s)
  | unmount {s : TimerState} : TReachable s → TReachable (cleanup s)

/-- Model of the host runtime's `setInterval` delivery schedule: a clock
created at time `t0` with period `p` runs its `k`-th callback at
`t0 + p * (k + 1)` — the first callback only after one full period, no
leading call at creation time. -/
def fireTimes (t0 p k : Nat) : Nat := t0 + p * (k + 1)

/-- State of the composed system built by the facade `setSafeInterval`
(lines 19-27): one timer instance and one guard instance, with the clock
callback wired to `setIntervalTrigger(true)`.  `mounted` is the React
lifecycle fact that the owning component has not been unmounted; it is
distinct from `timer.unmounted`, the code's `unmountedRef.current`, which
the effect cleanup also sets on a mere period change while the component
stays mounted — and which the trigger effect never reads. -/
structure SysState where
  timer : TimerState
  guard : GuardState
  mounted : Bool
deriving DecidableEq, Repr

/-- Events of the composed system: a clock callback runs, the `timeout`
argument changes, the owning component unmounts, the `paused` prop changes,
an in-flight task promise settles. -/
inductive SysEvent where
  | fireTick
  | changeTimeout (t : Nat)
  | unmount
  | setPaused (b : Bool)
  | complete (success : Bool)
deriving DecidableEq, Repr

/-- One step of the composed system.  The clock callback (lines 54-58)
runs the saved callback — a guard tick — only when `unmountedRef.current`
is still `false`; its `setState` is additionally ignored when the
component is no longer mounted.  A period change, a pause change and a
promise handler act through renders, effects and `setState` of the
component, so they do nothing once it is unmounted (React never
re-renders an unmounted component, never runs its effects, and ignores
its `setState`); while it is mounted they act regardless of
`unmountedRef.current`, which the trigger effect never consults.  The
unmount event runs the timer effect's cleanup exactly once. -/
def sysStep : SysEvent → SysState → SysState
  | SysEvent.fireTick, s =>
      if s.timer.unmounted = false then
        if s.mounted then { s with guard := gstep GEvent.tick s.guard } else s
      else s
  | SysEvent.changeTimeout t, s =>
      if s.mounted then { s with timer := changeTimeout t s.timer } else s
  | SysEvent.unmount, s =>
      if s.mounted then { s with timer := cleanup s.timer, mounted := false }
      else s
  | SysEvent.setPaused b, s =>
      if s.mounted then { s with guard := gstep (GEvent.setPaused b) s.guard }
      else s
  | SysEvent.complete b, s =>
      if s.mounted then { s with guard := gstep (GEvent.complete b) s.guard }
      else s

/-- Run a list of system events from a state, oldest first. -/
def sysRun (es : List SysEvent) (s : SysState) : SysState :=
  es.foldl (fun t e => sysStep e t) s

/-- Invariant tying `ready` to the in-flight count: at most one run is in
flight, and `ready = false` exactly while one is. -/
def GuardInv (s : GuardState) : Prop :=
  s.inFlight ≤ 1 ∧ (s.ready = some false ↔ s.inFlight = 1)

/-- Invariant for the timer: either no interval of this instance is live, or
exactly the one whose id `timeoutRef.current` holds. -/
def TInv (s : TimerState) : Prop :=
  s.liveIntervals = [] ∨
    ∃ id p, s.timeoutId = some id ∧ s.liveIntervals = [(id, p)]

/-- A guard state with one task run in flight (as reached by
`gstep GEvent.tick (gmount false)`). -/
def busyGuard : GuardState :=
  { intervalTrigger := false, ready := some false, paused := false,
    inFlight := 1, invocations := 1 }

/-- The guard state of the mount render, before the one-time effect has
initialized `ready`. -/
def freshGuard : GuardState :=
  { intervalTrigger := false, ready := none, paused := false,
    inFlight := 0, invocations := 0 }

/-- The composed-system state right after the facade mounted, unpaused,
with period 1000. -/
def liveSys : SysState :=
  { timer := tmount 1000, guard := gmount false, mounted := true }

/-- A composed-system state right after the owning component unmounted. -/
def deadSys : SysState :=
  { timer := cleanup (tmount 1000), guard := gmount false, mounted := false }

theorem runTriggerEffect_spec (s : GuardState) :
    (s.paused = false ∧ s.intervalTrigger = true ∧ s.ready = some true ∧
      runTriggerEffect s =
        { s with intervalTrigger := false, ready := some false,
                 inFlight := s.inFlight + 1,
                 invocations := s.invocations + 1 }) ∨
    (s.paused = false ∧ s.intervalTrigger = true ∧ s.ready ≠ some true ∧
      runTriggerEffect s = { s with intervalTrigger := false }) ∨
    ((s.paused = true ∨ s.intervalTrigger = false) ∧
      runTriggerEffect s = s) := by
  by_cases hp : s.paused = true
  · exact Or.inr (Or.inr ⟨Or.inl hp, by simp [runTriggerEffect, hp]⟩)
  · by_cases ht : s.intervalTrigger = true
    · by_cases hr : s.ready = some true
      · exact Or.inl ⟨by simpa using hp, ht, hr,
          by simp [runTriggerEffect, hp, ht, hr]⟩
      · exact Or.inr (Or.inl ⟨by simpa using hp, ht, hr,
          by simp [runTriggerEffect, hp, ht, hr]⟩)
    · exact Or.inr (Or.inr ⟨Or.inr (by simpa using ht),
        by simp [runTriggerEffect, hp, ht]⟩)

theorem runTriggerEffect_ready_stable {s : GuardState}
    (h : s.ready ≠ some true) : (runTriggerEffect s).ready = s.ready := by
  rcases runTriggerEffect_spec s with ⟨_, _, hr, _⟩ | ⟨_, _, _, heq⟩ | ⟨_, heq⟩
  · exact absurd hr h
  · rw [heq]
  · rw [heq]

theorem guardInv_runTriggerEffect {s : GuardState} (h : GuardInv s) :
    GuardInv (runTriggerEffect s) := by
  obtain ⟨h1, h2⟩ := h
  rcases runTriggerEffect_spec s with ⟨_, _, hr, heq⟩ | ⟨_, _, _, heq⟩ |
    ⟨_, heq⟩ <;> rw [heq]
  · have h0 : s.inFlight = 0 := by
      have hne : s.inFlight ≠ 1 := by
        intro hf
        have := h2.mpr hf
        rw [hr] at this
        simp at this
      omega
    constructor
    · simp [h0]
    · simp [h0]
  · exact ⟨h1, h2⟩
  · exact ⟨h1, h2⟩

theorem guardInv_gstep (e : GEvent) {s : GuardState} (h : GuardInv s) :
    GuardInv (gstep e s) := by
  cases e with
  | tick =>
      exact guardInv_runTriggerEffect (s := { s with intervalTrigger := true })
        ⟨h.1, h.2⟩
  | setPaused b =>
      exact guardInv_runTriggerEffect (s := { s with paused := b }) ⟨h.1, h.2⟩
  | complete b =>
      obtain ⟨h1, h2⟩ := h
      by_cases h0 : s.inFlight = 0
      · simpa [gstep, h0] using ⟨h1, h2⟩
      · have : s.inFlight = 1 := by omega
        constructor
        · simp [gstep, h0]; omega
        · simp [gstep, h0, this]

theorem guardInv_reachable {s : GuardState} (h : GReachable s) : GuardInv s := by
  induction h with
  | mount p =>
      cases p
      · exact ⟨by decide, by decide⟩
      · exact ⟨by decide, by decide⟩
  | step e h ih => exact guardInv_gstep e ih

theorem cleanup_unmounted (s : TimerState) : (cleanup s).unmounted = true := by
  cases h : s.timeoutId <;> simp [cleanup, h]

theorem sysStep_frozen {s : SysState} (h : s.mounted = false)
    (e : SysEvent) :
    (sysStep e s).guard = s.guard ∧ (sysStep e s).mounted = false := by
  cases e with
  | fireTick =>
      by_cases h0 : s.timer.unmounted = false <;> simp [sysStep, h0, h]
  | changeTimeout t => simp [sysStep, h]
  | unmount => simp [sysStep, h]
  | setPaused b => simp [sysStep, h]
  | complete b => simp [sysStep, h]

theorem filter_bne_idem (l : List (Nat × Nat)) (id : Nat) :
    (l.filter (fun ip => ip.fst != id)).filter (fun ip => ip.fst != id) =
      l.filter (fun ip => ip.fst != id) := by
  induction l with
  | nil => rfl
  | cons a l ih =>
      by_cases h : a.fst != id
      · simp [List.filter_cons, h, ih]
      · simp [List.filter_cons, h, ih]

theorem tInv_cleanup {s : TimerState} (h : TInv s) :
    (cleanup s).liveIntervals = [] := by
  rcases h with h | ⟨id, p, hid, hl⟩
  · cases h0 : s.timeoutId <;> simp [cleanup, h0, h]
  · simp [cleanup, hid, hl]

theorem tInv_runIntervalEffect {s : TimerState} (h : s.liveIntervals = [])
    (t : Nat) : TInv (runIntervalEffect t s) := by
  by_cases h0 : s.timeoutId = none
  · exact Or.inr ⟨s.nextId, t, by simp [runIntervalEffect, h0],
      by simp [runIntervalEffect, h0, h]⟩
  · left
    simp [runIntervalEffect, h0, h]

theorem tInv_reachable {s : TimerState} (h : TReachable s) : TInv s := by
  induction h with
  | mount t => exact Or.inr ⟨0, t, rfl, rfl⟩
  | change t h ih =>
      exact tInv_runIntervalEffect (tInv_cleanup ih) t
  | unmount h ih => exact Or.inl (tInv_cleanup ih)

/-- C1, counterexample: start unpaused, tick (first invocation, one run in
flight), tick again while the task is in flight, then the task completes.
The claim says the in-flight tick is recorded as a pending request and the
completion invokes the task again (2 invocations, one in flight after
completion).  In the code the in-flight tick merely resets the trigger
(`ready` is `false`, so no invocation and nothing is latched), and since
`ready` is not in the effect's dependency array, completion runs no effect:
the invocation count stays 1 and nothing is in flight. -/
theorem inflight_tick_no_followup_cex :
    (gstep GEvent.tick (gmount false)).inFlight = 1 ∧
    (gstep GEvent.tick (gstep GEvent.tick (gmount false))).intervalTrigger =
      false ∧
    (gstep GEvent.tick (gstep GEvent.tick (gmount false))).invocations = 1 ∧
    (gstep (GEvent.complete true)
      (gstep GEvent.tick (gstep GEvent.tick (gmount false)))).invocations = 1 ∧
    (gstep (GEvent.complete true)
      (gstep GEvent.tick (gstep GEvent.tick (gmount false)))).inFlight = 0 := by
  decide

/-- C1, amended: a tick that arrives while the task is in flight
(`ready = false`) and the guard is not paused resets the trigger and is
dropped — no pending request is recorded and the invocation count is
unchanged; task completion by itself never invokes the task (it only ends
the in-flight run); the follow-up invocation happens only at the first tick
processed after completion while unpaused, which then bumps the invocation
count by exactly one. -/
theorem inflight_tick_dropped_followup_at_next_tick {s : GuardState}
    (hr : s.ready = some false) (hp : s.paused = false) :
    ((gstep GEvent.tick s).invocations = s.invocations ∧
     (gstep GEvent.tick s).intervalTrigger = false ∧
     (gstep GEvent.tick s).inFlight = s.inFlight) ∧
    (∀ b, (gstep (GEvent.complete b) s).invocations = s.invocations) ∧
    (s.inFlight = 1 →
      (gstep GEvent.tick (gstep (GEvent.complete true) s)).invocations =
        s.invocations + 1) := by
  refine ⟨by simp [gstep, runTriggerEffect, hp, hr], fun b => ?_, fun h1 => ?_⟩
  · by_cases h0 : s.inFlight = 0 <;> simp [gstep, h0]
  · simp [gstep, runTriggerEffect, hp, h1]

/-- Witness for the amended C1 at the concrete in-flight state. -/
theorem inflight_tick_dropped_witness :
    busyGuard.ready = some false ∧ busyGuard.paused = false ∧
    busyGuard.inFlight = 1 ∧
    (gstep GEvent.tick busyGuard).invocations = busyGuard.invocations ∧
    (gstep GEvent.tick (gstep (GEvent.complete true) busyGuard)).invocations =
      busyGuard.invocations + 1 :=
  ⟨rfl, rfl, rfl,
   (inflight_tick_dropped_followup_at_next_tick rfl rfl).1.1,
   (inflight_tick_dropped_followup_at_next_tick rfl rfl).2.2 rfl⟩

/-- C2 (code_bug): changing the period from 1000 to 2000 runs the effect's
cleanup — which clears the only live interval and sets
`unmountedRef.current := true` — and then the effect body, which still sees
`timeoutRef.current = some 0` (it is never reset to `null`) and therefore
creates no new interval.  Afterwards no live clock exists, and even a stray
callback would be dropped by the unmounted test, so `onTick` never fires
again; the claim (and the code's own comment that the delay can be set
dynamically) requires a new clock with the new period to be started. -/
theorem change_timeout_kills_clock :
    (changeTimeout 2000 (tmount 1000)).liveIntervals = [] ∧
    (changeTimeout 2000 (tmount 1000)).unmounted = true ∧
    (changeTimeout 2000 (tmount 1000)).timeoutId = some 0 ∧
    (sysStep SysEvent.fireTick
      { timer := changeTimeout 2000 (tmount 1000), guard := gmount false,
        mounted := true }).guard = gmount false := by
  decide

/-- C3, counterexample: mount paused, one tick while paused (no invocation,
but the trigger stays latched at `true` because the effect body skips
everything under `if (!paused)`), then set the pause flag to `false`.  The
effect re-runs (its dependency `paused` changed), consumes the latched
trigger and invokes the task — one invocation with no new tick after
unpausing, refuting that the paused tick was discarded. -/
theorem paused_tick_latched_cex :
    (gstep GEvent.tick (gmount true)).intervalTrigger = true ∧
    (gstep GEvent.tick (gmount true)).invocations = 0 ∧
    (gstep (GEvent.setPaused false)
      (gstep GEvent.tick (gmount true))).invocations = 1 := by
  decide

/-- C3, amended: a tick that arrives while the pause flag is `true` causes
no invocation and leaves the in-flight count unchanged (zero invocations
during the paused window), but it is latched rather than discarded: the
trigger remains `true`, and when the pause flag becomes `false` the effect
re-runs, consumes the latched trigger and (when `ready` is `true`) invokes
the task without requiring a new tick. -/
theorem paused_tick_latched_unpause_invokes {s : GuardState}
    (hp : s.paused = true) :
    ((gstep GEvent.tick s).invocations = s.invocations ∧
     (gstep GEvent.tick s).inFlight = s.inFlight ∧
     (gstep GEvent.tick s).intervalTrigger = true) ∧
    (s.ready = some true →
      (gstep (GEvent.setPaused false)
        (gstep GEvent.tick s)).invocations = s.invocations + 1) := by
  constructor
  · simp [gstep, runTriggerEffect, hp]
  · intro hr
    simp [gstep, runTriggerEffect, hp, hr]

/-- Witness for the amended C3 at the paused mount state. -/
theorem paused_tick_latched_witness :
    (gmount true).paused = true ∧ (gmount true).ready = some true ∧
    (gstep GEvent.tick (gmount true)).intervalTrigger = true ∧
    (gstep (GEvent.setPaused false)
      (gstep GEvent.tick (gmount true))).invocations =
      (gmount true).invocations + 1 :=
  ⟨rfl, rfl, (paused_tick_latched_unpause_invokes rfl).1.2.2,
   (paused_tick_latched_unpause_invokes rfl).2 rfl⟩

/-- C4: in every reachable guard state at most one task invocation is in
flight; moreover any step that invokes the task (changes the invocation
count) does so from `ready = true`, leaves `ready = false`, and raises the
in-flight count by one; and from `ready = false` only the settling of the
in-flight promise (a `complete` event) ever makes `ready` `true` again — so
no two invocations of the task execute concurrently. -/
theorem no_concurrent_invocations {s : GuardState} (h : GReachable s) :
    s.inFlight ≤ 1 ∧
    (∀ e : GEvent, (gstep e s).invocations ≠ s.invocations →
      s.ready = some true ∧ (gstep e s).ready = some false ∧
        (gstep e s).inFlight = s.inFlight + 1) ∧
    (∀ e : GEvent, s.ready = some false → (gstep e s).ready = some true →
      ∃ b, e = GEvent.complete b) := by
  have hinv := guardInv_reachable h
  refine ⟨hinv.1, fun e hne => ?_, fun e hf hto => ?_⟩
  · cases e with
    | tick =>
        rcases runTriggerEffect_spec { s with intervalTrigger := true } with
          ⟨_, _, hr, heq⟩ | ⟨_, _, _, heq⟩ | ⟨_, heq⟩
        · simp only [gstep] at hne ⊢
          rw [heq] at hne ⊢
          exact ⟨hr, rfl, rfl⟩
        · simp only [gstep] at hne
          rw [heq] at hne
          simp at hne
        · simp only [gstep] at hne
          rw [heq] at hne
          simp at hne
    | setPaused b =>
        rcases runTriggerEffect_spec { s with paused := b } with
          ⟨_, _, hr, heq⟩ | ⟨_, _, _, heq⟩ | ⟨_, heq⟩
        · simp only [gstep] at hne ⊢
          rw [heq] at hne ⊢
          exact ⟨hr, rfl, rfl⟩
        · simp only [gstep] at hne
          rw [heq] at hne
          simp at hne
        · simp only [gstep] at hne
          rw [heq] at hne
          simp at hne
    | complete b =>
        exfalso
        simp only [gstep] at hne
        by_cases h0 : s.inFlight = 0 <;> simp [h0] at hne
  · cases e with
    | tick =>
        exfalso
        have hst : (gstep GEvent.tick s).ready = s.ready := by
          simp only [gstep]
          exact runTriggerEffect_ready_stable
            (s := { s with intervalTrigger := true }) (by simp [hf])
        rw [hst, hf] at hto
        simp at hto
    | setPaused b =>
        exfalso
        have hst : (gstep (GEvent.setPaused b) s).ready = s.ready := by
          simp only [gstep]
          exact runTriggerEffect_ready_stable
            (s := { s with paused := b }) (by simp [hf])
        rw [hst, hf] at hto
        simp at hto
    | complete b => exact ⟨b, rfl⟩

/-- Witness for C4 at the mounted unpaused guard. -/
theorem no_concurrent_invocations_witness :
    GReachable (gmount false) ∧ (gmount false).inFlight ≤ 1 :=
  ⟨GReachable.mount false,
   (no_concurrent_invocations (GReachable.mount false)).1⟩

/-- C5: unmounting a mounted component runs the cleanup (so
`unmountedRef.current` is set and a tick already dispatched but not yet
delivered fails the interval callback's test and is dropped) and ends the
component's lifecycle; and from any composed state whose component is torn
down, no sequence of further events — clock callbacks, pause changes,
period changes, or settlings of an in-flight promise (the run is not
cancelled, it settles without effect) — ever changes the task invocation
count, and the component stays torn down. -/
theorem teardown_freezes_invocations :
    (∀ s : SysState, s.mounted = true →
      (sysStep SysEvent.unmount s).mounted = false ∧
      (sysStep SysEvent.unmount s).timer.unmounted = true) ∧
    (∀ s : SysState, s.mounted = false →
      ∀ es : List SysEvent,
        (sysRun es s).guard.invocations = s.guard.invocations ∧
        (sysRun es s).mounted = false) := by
  constructor
  · intro s h
    refine ⟨by simp [sysStep, h], ?_⟩
    simp only [sysStep, h, if_true]
    exact cleanup_unmounted s.timer
  · intro s h es
    induction es generalizing s with
    | nil => exact ⟨rfl, h⟩
    | cons e es ih =>
        have h1 := sysStep_frozen h e
        have h2 := ih (s := sysStep e s) h1.2
        refine ⟨?_, h2.2⟩
        calc (sysRun (e :: es) s).guard.invocations
            = (sysRun es (sysStep e s)).guard.invocations := rfl
          _ = (sysStep e s).guard.invocations := h2.1
          _ = s.guard.invocations := by rw [h1.1]

/-- Witness for C5: unmounting the freshly mounted system sets both flags,
and after teardown a clock callback, a pause change, a period change and a
promise settling leave the invocation count unchanged. -/
theorem teardown_freezes_witness :
    ((liveSys.mounted = true ∧
      (sysStep SysEvent.unmount liveSys).mounted = false ∧
      (sysStep SysEvent.unmount liveSys).timer.unmounted = true) ∧
     deadSys.mounted = false) ∧
    (sysRun [SysEvent.fireTick, SysEvent.setPaused false,
        SysEvent.changeTimeout 2000, SysEvent.complete true]
      deadSys).guard.invocations = deadSys.guard.invocations :=
  ⟨⟨⟨rfl, teardown_freezes_invocations.1 liveSys rfl⟩, rfl⟩,
   (teardown_freezes_invocations.2 deadSys rfl
    [SysEvent.fireTick, SysEvent.setPaused false,
     SysEvent.changeTimeout 2000, SysEvent.complete true]).1⟩

/-- C6: a settling promise is handled identically whether it resolved or
rejected (the `then` and `catch` handlers both just set `ready := true`):
the resulting states are equal for every start state; completion of an
in-flight run always makes `ready` `true` again; and after a rejected
completion the next tick still invokes the task, bumping the invocation
count by one exactly as after a success. -/
theorem rejection_treated_as_success :
    (∀ (b1 b2 : Bool) (s : GuardState),
      gstep (GEvent.complete b1) s = gstep (GEvent.complete b2) s) ∧
    (∀ (b : Bool) (s : GuardState), s.inFlight ≠ 0 →
      (gstep (GEvent.complete b) s).ready = some true) ∧
    (∀ s : GuardState, s.inFlight = 1 → s.paused = false →
      (gstep GEvent.tick (gstep (GEvent.complete false) s)).invocations =
        s.invocations + 1) := by
  refine ⟨fun b1 b2 s => rfl, fun b s h => by simp [gstep, h], fun s h1 hp => ?_⟩
  simp [gstep, runTriggerEffect, h1, hp]

/-- Witness for C6 at the concrete in-flight state. -/
theorem rejection_treated_witness :
    busyGuard.inFlight = 1 ∧ busyGuard.paused = false ∧
    (gstep (GEvent.complete false) busyGuard).ready = some true ∧
    (gstep GEvent.tick (gstep (GEvent.complete false) busyGuard)).invocations =
      busyGuard.invocations + 1 :=
  ⟨rfl, rfl, rejection_treated_as_success.2.1 false busyGuard (by decide),
   rejection_treated_as_success.2.2 busyGuard rfl rfl⟩

/-- C7: mounting with a positive period `t` creates exactly one live clock
with period `t`, and by the `setInterval` delivery model its callbacks run
at `t0 + t`, `t0 + 2t`, ... — spaced by `t`, the first one a full period
after start, and every one strictly after the start instant (no immediate
leading call). -/
theorem first_tick_after_full_period (t : Nat) (ht : 0 < t) (t0 : Nat) :
    (tmount t).liveIntervals = [(0, t)] ∧
    fireTimes t0 t 0 = t0 + t ∧
    (∀ k, fireTimes t0 t (k + 1) = fireTimes t0 t k + t) ∧
    (∀ k, t0 < fireTimes t0 t k) := by
  refine ⟨rfl, by simp [fireTimes], fun k => by simp [fireTimes]; ring,
    fun k => ?_⟩
  have hpos : 0 < t * (k + 1) := Nat.mul_pos ht (Nat.succ_pos k)
  simp only [fireTimes]
  omega

/-- Witness for C7 at period 1000 starting at time 0. -/
theorem first_tick_witness :
    (0 : Nat) < 1000 ∧ fireTimes 0 1000 0 = 0 + 1000 ∧ fireTimes 0 1000 1 =
      fireTimes 0 1000 0 + 1000 ∧ 0 < fireTimes 0 1000 0 :=
  ⟨by decide, (first_tick_after_full_period 1000 (by decide) 0).2.1,
   (first_tick_after_full_period 1000 (by decide) 0).2.2.1 0,
   (first_tick_after_full_period 1000 (by decide) 0).2.2.2 0⟩

/-- C8: re-running the interval effect while `timeoutRef.current` is
non-null is a no-op (no second clock is ever created), and in every
reachable timer state at most one interval of this instance is live. -/
theorem single_live_clock :
    (∀ (t : Nat) (s : TimerState), s.timeoutId ≠ none →
      runIntervalEffect t s = s) ∧
    (∀ s : TimerState, TReachable s → s.liveIntervals.length ≤ 1) := by
  constructor
  · intro t s h
    simp [runIntervalEffect, h]
  · intro s h
    rcases tInv_reachable h with h1 | ⟨id, p, _, h2⟩
    · simp [h1]
    · simp [h2]

/-- Witness for C8 at the freshly mounted timer. -/
theorem single_live_clock_witness :
    ((tmount 1000).timeoutId ≠ none ∧
      runIntervalEffect 2000 (tmount 1000) = tmount 1000) ∧
    (TReachable (tmount 1000) ∧ (tmount 1000).liveIntervals.length ≤ 1) :=
  ⟨⟨by decide, single_live_clock.1 2000 (tmount 1000) (by decide)⟩,
   ⟨TReachable.mount 1000,
    single_live_clock.2 (tmount 1000) (TReachable.mount 1000)⟩⟩

/-- C9: the effect cleanup (stop/teardown) is idempotent — running it a
second time, from any state, yields exactly the state after the first run —
and running it on a timer that was never started (no interval ever created)
is safe: it only sets the unmounted flag. -/
theorem cleanup_idempotent :
    (∀ s : TimerState, cleanup (cleanup s) = cleanup s) ∧
    cleanup { timeoutId := none, unmounted := false, liveIntervals := [],
              nextId := 0 } =
      { timeoutId := none, unmounted := true, liveIntervals := [],
        nextId := 0 } := by
  constructor
  · intro s
    cases h : s.timeoutId with
    | none => simp [cleanup, h]
    | some id => simp [cleanup, h, filter_bne_idem]
  · rfl

/-- C10: a tick processed while `ready` is still `undefined` (before the
one-time initialization effect has run) and the guard is not paused resets
the trigger, invokes nothing, records nothing, and leaves `ready`
`undefined`; processing it is a total function, so it cannot fault. -/
theorem preinit_tick_dropped {s : GuardState} (hr : s.ready = none)
    (hp : s.paused = false) :
    (gstep GEvent.tick s).intervalTrigger = false ∧
    (gstep GEvent.tick s).invocations = s.invocations ∧
    (gstep GEvent.tick s).inFlight = s.inFlight ∧
    (gstep GEvent.tick s).ready = none := by
  simp [gstep, runTriggerEffect, hp, hr]

/-- Witness for C10 at the pre-initialization mount-render state. -/
theorem preinit_tick_witness :
    freshGuard.ready = none ∧ freshGuard.paused = false ∧
    (gstep GEvent.tick freshGuard).invocations = freshGuard.invocations :=
  ⟨rfl, rfl, (preinit_tick_dropped rfl rfl).2.1⟩

end SetSafeInterval
